import Mathlib

/-!
Verification of the filter-and-aggregate pipeline of
`src/Streamlit_project/app1.py`.

The script loads a table `df`, builds a sidebar filter state (two range
sliders, a multiselect and a radio choice), computes `filtered_df` by a
conjunction of boolean masks (lines 149-160), and derives summary metrics
from both `df` and `filtered_df` (rates, grouped means, `pct_shown`).

The embedding below mirrors the pandas semantics the script relies on:
a table is an ordered list of rows with a declared column list; column
access on a missing column is a `KeyError` raised when the column is
looked up (before the mask is evaluated on any row); boolean-mask
indexing returns a fresh table and never mutates its input; `.mean()` of
an empty series is NaN (modelled as `none`); `groupby(g)[v].mean()`
returns one mean per distinct key present, keys sorted ascending.
-/

namespace DivorceApp

/-- A cell value: the columns the script filters and aggregates on are
integer-valued (`age_at_marriage`, `marriage_duration_years`,
`num_children`, `infidelity_occurred`, `divorced`). -/
abbrev Value := Int

/-- A row: an association from column name to value. -/
abbrev Row := List (String × Value)

/-- Value of column `c` in row `r`, when present. -/
def getVal (r : Row) (c : String) : Option Value :=
  (r.find? (fun p => p.1 == c)).map (fun p => p.2)

/-- An in-memory table (pandas `DataFrame`): a declared column list and an
ordered list of rows. -/
structure DataFrame where
  columns : List String
  rows : List Row
deriving DecidableEq, Repr

/-- The sidebar radio choice for infidelity (app1.py lines 143-146):
`All`, `No Infidelity`, `Infidelity Occurred`. -/
inductive InfChoice
  | all
  | noInf
  | occurred
deriving DecidableEq, Repr

/-- The sidebar filter state (app1.py lines 120-146): the age slider range,
the duration slider range, the children multiselect and the radio choice. -/
structure FilterSpec where
  ageLo : Value
  ageHi : Value
  durLo : Value
  durHi : Value
  childrenSel : List Value
  inf : InfChoice
deriving DecidableEq, Repr

/-- The conjunction of the range and membership masks of app1.py lines
149-155, evaluated on one row: age in `[ageLo, ageHi]`, duration in
`[durLo, durHi]`, `num_children` in the multiselect set.  A row with a
missing value fails the mask. -/
def rowPassesBase (s : FilterSpec) (r : Row) : Bool :=
  match getVal r "age_at_marriage", getVal r "marriage_duration_years",
      getVal r "num_children" with
  | some a, some d, some c =>
      decide (s.ageLo ≤ a) && decide (a ≤ s.ageHi) &&
      decide (s.durLo ≤ d) && decide (d ≤ s.durHi) &&
      s.childrenSel.contains c
  | _, _, _ => false

/-- The columns the base mask of lines 149-155 looks up. -/
def baseCols : List String :=
  ["age_at_marriage", "marriage_duration_years", "num_children"]

/-- Lines 149-155: `df[(df[...] >= ...) & ... & df[...].isin(...)]`.
Pandas raises `KeyError` as soon as one of the referenced columns is
absent; otherwise the mask is evaluated on every row and the matching
rows are returned as a fresh table. -/
def applyBase (df : DataFrame) (s : FilterSpec) : Except String DataFrame :=
  if baseCols.all (fun c => df.columns.contains c) then
    .ok ⟨df.columns, df.rows.filter (rowPassesBase s)⟩
  else
    .error "KeyError"

/-- The equality mask `row['infidelity_occurred'] == v` on one row. -/
def rowInfEq (v : Value) (r : Row) : Bool :=
  getVal r "infidelity_occurred" == some v

/-- Lines 157-160: the optional second filtering step applied to the
already-filtered table, depending on the radio choice. -/
def applyInf (s : FilterSpec) (df : DataFrame) : Except String DataFrame :=
  match s.inf with
  | .all => .ok df
  | .noInf =>
      if df.columns.contains "infidelity_occurred" then
        .ok ⟨df.columns, df.rows.filter (rowInfEq 0)⟩
      else
        .error "KeyError"
  | .occurred =>
      if df.columns.contains "infidelity_occurred" then
        .ok ⟨df.columns, df.rows.filter (rowInfEq 1)⟩
      else
        .error "KeyError"

/-- `filtered_df` (app1.py lines 149-160): the base conjunction of masks
followed by the optional infidelity equality filter. -/
def filtered_df (df : DataFrame) (s : FilterSpec) : Except String DataFrame :=
  match applyBase df s with
  | .ok d => applyInf s d
  | .error e => .error e

/-- The predicate a row must satisfy to appear in `filtered_df`: the
conjunction of every active predicate of the spec. -/
def rowPasses (s : FilterSpec) (r : Row) : Bool :=
  rowPassesBase s r &&
    (match s.inf with
     | .all => true
     | .noInf => rowInfEq 0 r
     | .occurred => rowInfEq 1 r)

/-- The series `df[c]`: the values of column `c` across the rows. -/
def colVals (df : DataFrame) (c : String) : List Value :=
  df.rows.filterMap (fun r => getVal r c)

/-- `series.mean()`: arithmetic mean as a rational; pandas returns NaN on
an empty series, modelled as `none`. -/
def mean (xs : List Value) : Option ℚ :=
  if xs.isEmpty then none
  else some ((xs.map (fun (v : Value) => (v : ℚ))).sum / (xs.length : ℚ))

/-- `filtered_df['divorced'].mean()` (app1.py line 171, and line 30 for the
unfiltered table). -/
def divorceRate (df : DataFrame) : Option ℚ :=
  mean (colVals df "divorced")

/-- The values of column `v` on the rows of the group with key `k` in
column `g`. -/
def groupVals (df : DataFrame) (g v : String) (k : Value) : List Value :=
  (df.rows.filter (fun r => getVal r g == some k)).filterMap
    (fun r => getVal r v)

/-- `df.groupby(g)[v].mean()` (app1.py lines 87-88 and 219-222): one entry
per distinct key of `g` present in the table, keys in ascending order,
each mapped to the mean of `v` over that group's rows; keys with no rows
do not appear. -/
def groupedMean (df : DataFrame) (g v : String) : List (Value × ℚ) :=
  (((colVals df g).dedup).insertionSort (· ≤ ·)).filterMap
    (fun k => (mean (groupVals df g v k)).map (fun m => (k, m)))

/-- `divorce_by_infidelity` (app1.py lines 219-222). -/
def divorce_by_infidelity (df : DataFrame) : List (Value × ℚ) :=
  groupedMean df "infidelity_occurred" "divorced"

/-- `divorce_by_children` (app1.py lines 87-88 and 230-231). -/
def divorce_by_children (df : DataFrame) : List (Value × ℚ) :=
  groupedMean df "num_children" "divorced"

/-- `pct_shown = len(filtered_df) / len(df) * 100` (app1.py line 173). -/
def pct_shown (df fd : DataFrame) : ℚ :=
  (fd.rows.length : ℚ) / (df.rows.length : ℚ) * 100

/-! ### Sample data for concrete evaluations -/

/-- A two-row table with the five columns the script uses. -/
def sampleDF : DataFrame :=
  ⟨["age_at_marriage", "marriage_duration_years", "num_children",
    "infidelity_occurred", "divorced"],
   [[("age_at_marriage", 25), ("marriage_duration_years", 5),
     ("num_children", 2), ("infidelity_occurred", 0), ("divorced", 1)],
    [("age_at_marriage", 45), ("marriage_duration_years", 20),
     ("num_children", 0), ("infidelity_occurred", 1), ("divorced", 0)]]⟩

/-- The default sidebar state of the script: age `(20, 40)`, duration
`(0, 10)`, all children values selected, radio at `All`. -/
def sampleSpec : FilterSpec := ⟨20, 40, 0, 10, [0, 1, 2], .all⟩

/-- A sidebar state whose ranges and selection cover every row of
`sampleDF`. -/
def coverSpec : FilterSpec := ⟨0, 100, 0, 100, [0, 1, 2], .all⟩

/-- The table of the spec's grouped-mean example:
rows `[{g:0,v:10},{g:0,v:20},{g:1,v:5}]`. -/
def exDF : DataFrame :=
  ⟨["g", "v"],
   [[("g", 0), ("v", 10)], [("g", 0), ("v", 20)], [("g", 1), ("v", 5)]]⟩

/-! ### Helper lemmas -/

/-- The base mask does not read the radio choice. -/
theorem rowPassesBase_setInf (s : FilterSpec) (c : InfChoice) :
    rowPassesBase { s with inf := c } = rowPassesBase s := rfl

/-- When `filtered_df` succeeds, it keeps the column list and returns
exactly the rows passing the conjunction of all active predicates. -/
theorem filtered_df_ok {df : DataFrame} {s : FilterSpec} {v : DataFrame}
    (h : filtered_df df s = .ok v) :
    v.columns = df.columns ∧ v.rows = df.rows.filter (rowPasses s) := by
  by_cases hb : baseCols.all (fun c => df.columns.contains c) = true
  · have hfd : filtered_df df s
        = applyInf s ⟨df.columns, df.rows.filter (rowPassesBase s)⟩ := by
      unfold filtered_df applyBase
      rw [if_pos hb]
    rw [hfd] at h
    cases hinf : s.inf <;> simp only [applyInf, hinf] at h
    · cases h
      refine ⟨rfl, ?_⟩
      apply List.filter_congr
      intro r hr
      simp [rowPasses, hinf]
    · split at h
      · cases h
        refine ⟨rfl, ?_⟩
        rw [List.filter_filter]
        apply List.filter_congr
        intro r hr
        simp [rowPasses, hinf, Bool.and_comm]
      · exact absurd h (by simp)
    · split at h
      · cases h
        refine ⟨rfl, ?_⟩
        rw [List.filter_filter]
        apply List.filter_congr
        intro r hr
        simp [rowPasses, hinf, Bool.and_comm]
      · exact absurd h (by simp)
  · have : filtered_df df s = .error "KeyError" := by
      unfold filtered_df applyBase
      rw [if_neg hb]
    rw [this] at h
    exact absurd h (by simp)

/-! ### Claims -/

/-- C1: every successful `filtered_df` is a subsequence of the base
table's rows: each result row is a row of the base table, relative order
is preserved, and the result is no longer than the base table. -/
theorem filtered_df_sublist (df : DataFrame) (s : FilterSpec) (v : DataFrame)
    (h : filtered_df df s = .ok v) :
    v.rows.Sublist df.rows ∧ (∀ r ∈ v.rows, r ∈ df.rows) ∧
      v.rows.length ≤ df.rows.length := by
  obtain ⟨-, hr⟩ := filtered_df_ok h
  rw [hr]
  exact ⟨List.filter_sublist df.rows, fun r hrm => (List.filter_sublist df.rows).mem hrm,
    List.length_filter_le _ df.rows⟩

/-- Witness for C1 at the sample table and the default sidebar state. -/
theorem filtered_df_sublist_witness :
    (⟨sampleDF.columns, [sampleDF.rows.head!]⟩ : DataFrame).rows.Sublist sampleDF.rows ∧
      (∀ r ∈ (⟨sampleDF.columns, [sampleDF.rows.head!]⟩ : DataFrame).rows, r ∈ sampleDF.rows) ∧
      (⟨sampleDF.columns, [sampleDF.rows.head!]⟩ : DataFrame).rows.length ≤ sampleDF.rows.length :=
  filtered_df_sublist sampleDF sampleSpec ⟨sampleDF.columns, [sampleDF.rows.head!]⟩ rfl

/-- C2: a row appears in a successful `filtered_df` iff it is a row of the
base table on which every active predicate is true; when every predicate
holds on every row (all controls at their no-filter state on this table),
the result is the base table itself, rows in the same order. -/
theorem filtered_df_conjunction (df : DataFrame) (s : FilterSpec) (v : DataFrame)
    (h : filtered_df df s = .ok v) :
    (∀ r, r ∈ v.rows ↔ r ∈ df.rows ∧ rowPasses s r = true) ∧
      ((∀ r ∈ df.rows, rowPasses s r = true) → v = df) := by
  obtain ⟨hc, hr⟩ := filtered_df_ok h
  constructor
  · intro r
    rw [hr]
    exact List.mem_filter
  · intro hall
    have : v.rows = df.rows := by
      rw [hr]
      exact List.filter_eq_self.mpr hall
    cases v
    cases df
    simp_all


/-- Witness for C2: at the covering sidebar state, the sample table is
returned unchanged. -/
theorem filtered_df_conjunction_witness :
    (∀ r, r ∈ sampleDF.rows ↔ r ∈ sampleDF.rows ∧ rowPasses coverSpec r = true) ∧
      ((∀ r ∈ sampleDF.rows, rowPasses coverSpec r = true) → sampleDF = sampleDF) :=
  filtered_df_conjunction sampleDF coverSpec sampleDF rfl

/-- C3: adding the infidelity equality predicate on top of the range and
membership predicates can only shrink the row count: for any sidebar
state `s`, the filtered row count under `s` is at most the count under
the same state with the radio at `All` (the base predicates alone). -/
theorem filtered_df_count_monotone (df : DataFrame) (s : FilterSpec)
    (v1 v2 : DataFrame)
    (h1 : filtered_df df { s with inf := .all } = .ok v1)
    (h2 : filtered_df df s = .ok v2) :
    v2.rows.length ≤ v1.rows.length := by
  obtain ⟨-, hr1⟩ := filtered_df_ok h1
  obtain ⟨-, hr2⟩ := filtered_df_ok h2
  rw [hr1, hr2]
  have hbase : df.rows.filter (rowPasses { s with inf := .all })
      = df.rows.filter (rowPassesBase s) := by
    apply List.filter_congr
    intro r hr
    simp [rowPasses, rowPassesBase_setInf]
  rw [hbase]
  have hconj : df.rows.filter (rowPasses s)
      = (df.rows.filter (rowPassesBase s)).filter
          (fun r => match s.inf with
            | .all => true
            | .noInf => rowInfEq 0 r
            | .occurred => rowInfEq 1 r) := by
    rw [List.filter_filter]
    apply List.filter_congr
    intro r hr
    simp [rowPasses, Bool.and_comm]
  rw [hconj]
  exact List.length_filter_le _ _

/-- Witness for C3: on the sample table, restricting the default state to
`No Infidelity` keeps at most as many rows. -/
theorem filtered_df_count_monotone_witness :
    (⟨sampleDF.columns, [sampleDF.rows.head!]⟩ : DataFrame).rows.length
      ≤ (⟨sampleDF.columns, [sampleDF.rows.head!]⟩ : DataFrame).rows.length :=
  filtered_df_count_monotone sampleDF ⟨20, 40, 0, 10, [0, 1, 2], .noInf⟩
    ⟨sampleDF.columns, [sampleDF.rows.head!]⟩
    ⟨sampleDF.columns, [sampleDF.rows.head!]⟩ rfl rfl

/-- C4: on a view with zero rows, the divorce-rate metric is the
undefined sentinel (`none`, pandas NaN): no exception is raised (the
function is total) and the result is not `0`. -/
theorem rate_empty_view (v : DataFrame) (h : v.rows = []) :
    divorceRate v = none ∧ divorceRate v ≠ some 0 := by
  have hc : colVals v "divorced" = [] := by
    simp [colVals, h]
  constructor
  · simp [divorceRate, hc, mean]
  · simp [divorceRate, hc, mean]

/-- Witness for C4 at a concrete empty view. -/
theorem rate_empty_view_witness :
    divorceRate ⟨sampleDF.columns, []⟩ = none ∧
      divorceRate ⟨sampleDF.columns, []⟩ ≠ some 0 :=
  rate_empty_view ⟨sampleDF.columns, []⟩ rfl

/-- C6: with the children multiselect empty, `filtered_df` always
succeeds-or-fails as usual but any successful result has zero rows; this
is distinct from the no-filter state, under which (every predicate true
on every row) the full table is returned. -/
theorem empty_selection (df : DataFrame) (s : FilterSpec) (v : DataFrame)
    (hsel : s.childrenSel = []) (h : filtered_df df s = .ok v) :
    v.rows.length = 0 ∧
      (∀ s2 v2, (∀ r ∈ df.rows, rowPasses s2 r = true) →
        filtered_df df s2 = .ok v2 → v2.rows = df.rows) := by
  constructor
  · obtain ⟨-, hr⟩ := filtered_df_ok h
    rw [hr]
    simp only [List.length_eq_zero, List.filter_eq_nil_iff]
    intro r hrm hp
    unfold rowPasses at hp
    rw [Bool.and_eq_true] at hp
    obtain ⟨hbase, -⟩ := hp
    unfold rowPassesBase at hbase
    split at hbase
    · rename_i a d c heqa heqd heqc
      rw [Bool.and_eq_true] at hbase
      obtain ⟨-, hcont⟩ := hbase
      rw [hsel] at hcont
      simp at hcont
    · simp at hbase
  · intro s2 v2 hall h2
    obtain ⟨-, hr2⟩ := filtered_df_ok h2
    rw [hr2]
    exact List.filter_eq_self.mpr hall

/-- Witness for C6: the empty multiselect on the sample table yields zero
rows. -/
theorem empty_selection_witness :
    (⟨sampleDF.columns, []⟩ : DataFrame).rows.length = 0 ∧
      (∀ s2 v2, (∀ r ∈ sampleDF.rows, rowPasses s2 r = true) →
        filtered_df sampleDF s2 = .ok v2 → v2.rows = sampleDF.rows) :=
  empty_selection sampleDF ⟨20, 40, 0, 10, [], .all⟩ ⟨sampleDF.columns, []⟩ rfl rfl

/-- Mapping `Prod.fst` over the grouped-mean entries gives back a
subsequence of the scanned key list. -/
theorem map_fst_filterMap_sublist (f : Value → Option ℚ) :
    ∀ keys : List Value,
      ((keys.filterMap (fun k => (f k).map (fun m => (k, m)))).map
        Prod.fst).Sublist keys
  | [] => by simp
  | a :: t => by
    cases hf : f a
    · simp only [List.filterMap_cons, hf, Option.map_none']
      exact (map_fst_filterMap_sublist f t).cons a
    · simp only [List.filterMap_cons, hf, Option.map_some', List.map_cons]
      exact (map_fst_filterMap_sublist f t).cons₂ a

/-- A nonempty group has a defined mean. -/
theorem mean_ne_nil {xs : List Value} (h : xs ≠ []) :
    mean xs
      = some ((xs.map (fun (v : Value) => (v : ℚ))).sum / (xs.length : ℚ)) := by
  rw [mean, if_neg]
  simp [h]

/-- Every entry of a grouped mean pairs a key present in the view with
the mean of that group's values. -/
theorem groupedMean_mem_spec (df : DataFrame) (g v : String) (k : Value)
    (m : ℚ) (hm : (k, m) ∈ groupedMean df g v) :
    k ∈ colVals df g ∧ mean (groupVals df g v k) = some m := by
  rw [groupedMean, List.mem_filterMap] at hm
  obtain ⟨a, ha, hfa⟩ := hm
  cases hma : mean (groupVals df g v a) with
  | none => rw [hma] at hfa; simp at hfa
  | some q =>
      rw [hma] at hfa
      simp only [Option.map_some', Option.some.injEq, Prod.mk.injEq] at hfa
      obtain ⟨hak, hqm⟩ := hfa
      subst hak
      subst hqm
      refine ⟨?_, hma⟩
      rw [List.mem_insertionSort] at ha
      exact List.mem_dedup.mp ha

/-- C5: `groupby(g)[v].mean()` is correct: on the spec's example rows it
yields `{0: 15, 1: 5}`; its keys are always in ascending order; every
emitted entry is a key present in the view mapped to the mean of that
group's values; and every key present with at least one value is emitted
(keys with no rows are omitted rather than emitted as zero). -/
theorem grouped_mean_correct :
    (groupedMean exDF "g" "v" = [(0, 15), (1, 5)]) ∧
      (∀ df g v, List.Sorted (· ≤ ·) ((groupedMean df g v).map Prod.fst)) ∧
      (∀ df g v k m, (k, m) ∈ groupedMean df g v →
        k ∈ colVals df g ∧ mean (groupVals df g v k) = some m) ∧
      (∀ df g v k, k ∈ colVals df g → groupVals df g v k ≠ [] →
        ∃ m, (k, m) ∈ groupedMean df g v ∧
          mean (groupVals df g v k) = some m) := by
  refine ⟨?_, ?_, ?_, ?_⟩
  · simp +decide [groupedMean, colVals, exDF, groupVals, mean, getVal,
      List.insertionSort, List.orderedInsert]
    norm_num
  · intro df g v
    apply List.Pairwise.sublist (map_fst_filterMap_sublist _ _)
    exact List.sorted_insertionSort _ _
  · exact groupedMean_mem_spec
  · intro df g v k hk hne
    have hmem : k ∈ ((colVals df g).dedup).insertionSort (· ≤ ·) := by
      rw [List.mem_insertionSort]
      exact List.mem_dedup.mpr hk
    refine ⟨_, ?_, mean_ne_nil hne⟩
    rw [groupedMean, List.mem_filterMap]
    exact ⟨k, hmem, by rw [mean_ne_nil hne]; rfl⟩

/-- Witness for C5: the first entry of the example is key `0` with
mean `15`. -/
theorem grouped_mean_correct_witness :
    (0 : Value) ∈ colVals exDF "g" ∧
      mean (groupVals exDF "g" "v" 0) = some 15 :=
  grouped_mean_correct.2.2.1 exDF "g" "v" 0 15
    (by rw [grouped_mean_correct.1]; simp)

/-- The overview block of app1.py lines 162-174: the filtered table and
the four metric values, with the base table threaded through. -/
structure StageResult where
  df : DataFrame
  filtered : Except String DataFrame
  filteredCouples : Option Nat
  totalFeatures : Nat
  pct : Option ℚ
deriving Repr

/-- Lines 149-174: compute `filtered_df`, then read `len(filtered_df)`,
`len(df.columns)` and `pct_shown` — the latter two from the unfiltered
table. -/
def runOverview (df : DataFrame) (s : FilterSpec) : StageResult :=
  let fd := filtered_df df s
  { df := df
    filtered := fd
    filteredCouples := fd.toOption.map (fun d => d.rows.length)
    totalFeatures := df.columns.length
    pct := fd.toOption.map (fun d => pct_shown df d) }

/-- C8: computing the filtered view leaves the base table unchanged — the
overview stage still sees the original rows in the original order, and
its total-feature metric reads the original column list (pandas
boolean-mask indexing returns a fresh frame and never mutates its
input, which the pure embedding reflects). -/
theorem base_df_unchanged (df : DataFrame) (s : FilterSpec) :
    (runOverview df s).df = df ∧
      (runOverview df s).df.rows = df.rows ∧
      (runOverview df s).totalFeatures = df.columns.length ∧
      (runOverview df s).filtered = filtered_df df s :=
  ⟨rfl, rfl, rfl, rfl⟩

/-- A mean of values that are each `0` or `1` lies in `[0, 1]`. -/
theorem mean_bounds {xs : List Value} {q : ℚ}
    (hx : ∀ x ∈ xs, x = 0 ∨ x = 1) (h : mean xs = some q) :
    0 ≤ q ∧ q ≤ 1 := by
  rw [mean] at h
  split at h
  · simp at h
  · rename_i hne
    rw [Option.some.injEq] at h
    subst h
    have hlen : 0 < (xs.length : ℚ) := by
      have : xs ≠ [] := by simpa [List.isEmpty_iff] using hne
      have : 0 < xs.length := List.length_pos.mpr this
      exact_mod_cast this
    constructor
    · apply div_nonneg _ hlen.le
      apply List.sum_nonneg
      intro y hy
      rw [List.mem_map] at hy
      obtain ⟨x, hxm, rfl⟩ := hy
      rcases hx x hxm with rfl | rfl <;> norm_num
    · rw [div_le_one hlen]
      have hsum : (xs.map (fun (v : Value) => (v : ℚ))).sum
          ≤ (xs.map (fun (v : Value) => (v : ℚ))).length • (1 : ℚ) := by
        apply List.sum_le_card_nsmul
        intro y hy
        rw [List.mem_map] at hy
        obtain ⟨x, hxm, rfl⟩ := hy
        rcases hx x hxm with rfl | rfl <;> norm_num
      rw [List.length_map, nsmul_eq_mul, mul_one] at hsum
      exact hsum

/-- C9: when the `divorced` column holds only `0`/`1` values, every
defined divorce-rate value and every entry of a grouped mean of that
column lies in `[0, 1]`. -/
theorem rate_bounds :
    (∀ df q, (∀ x ∈ colVals df "divorced", x = 0 ∨ x = 1) →
      divorceRate df = some q → 0 ≤ q ∧ q ≤ 1) ∧
      (∀ df g k m, (∀ x ∈ colVals df "divorced", x = 0 ∨ x = 1) →
        (k, m) ∈ groupedMean df g "divorced" → 0 ≤ m ∧ m ≤ 1) := by
  constructor
  · intro df q hx h
    exact mean_bounds hx h
  · intro df g k m hx hm
    obtain ⟨-, hmean⟩ := groupedMean_mem_spec df g "divorced" k m hm
    apply mean_bounds _ hmean
    intro x hxg
    apply hx
    have hsub : (groupVals df g "divorced" k).Sublist (colVals df "divorced") := by
      rw [groupVals, colVals]
      exact (List.filter_sublist df.rows).filterMap _
    exact hsub.mem hxg

/-- Witness for C9: the sample table's divorce rate is one half, which
lies in `[0, 1]`. -/
theorem rate_bounds_witness : 0 ≤ (1 / 2 : ℚ) ∧ (1 / 2 : ℚ) ≤ 1 :=
  rate_bounds.1 sampleDF (1 / 2) (by decide)
    (by simp +decide [divorceRate, colVals, sampleDF, mean, getVal])

/-- C10: on a nonempty base table, every successful filter gives a
`pct_shown` in `[0, 100]`, and it equals `100` exactly when the filter
excluded no rows. -/
theorem pct_shown_bounds (df : DataFrame) (s : FilterSpec) (v : DataFrame)
    (hne : df.rows ≠ []) (h : filtered_df df s = .ok v) :
    0 ≤ pct_shown df v ∧ pct_shown df v ≤ 100 ∧
      (pct_shown df v = 100 ↔ v.rows = df.rows) := by
  have hsub : v.rows.Sublist df.rows := by
    rw [(filtered_df_ok h).2]
    exact List.filter_sublist df.rows
  have hlen : v.rows.length ≤ df.rows.length := hsub.length_le
  have hpos : 0 < (df.rows.length : ℚ) := by
    have : 0 < df.rows.length := List.length_pos.mpr hne
    exact_mod_cast this
  have hle1 : (v.rows.length : ℚ) / (df.rows.length : ℚ) ≤ 1 := by
    rw [div_le_one hpos]
    exact_mod_cast hlen
  refine ⟨?_, ?_, ?_⟩
  · apply mul_nonneg _ (by norm_num)
    apply div_nonneg _ hpos.le
    positivity
  · calc (v.rows.length : ℚ) / (df.rows.length : ℚ) * 100
        ≤ 1 * 100 := by
          apply mul_le_mul_of_nonneg_right hle1
          norm_num
      _ = 100 := by norm_num
  · rw [pct_shown]
    constructor
    · intro h100
      have h1 : (v.rows.length : ℚ) / (df.rows.length : ℚ) * 100
          = 1 * 100 := by
        rw [one_mul]
        exact h100
      have h2 : (v.rows.length : ℚ) / (df.rows.length : ℚ) = 1 :=
        mul_right_cancel₀ (by norm_num) h1
      rw [div_eq_one_iff_eq hpos.ne'] at h2
      have hlen_eq : v.rows.length = df.rows.length := by exact_mod_cast h2
      exact hsub.eq_of_length hlen_eq
    · intro heq
      rw [heq, div_self hpos.ne']
      norm_num

/-- Witness for C10: the covering sidebar state keeps both sample rows,
so `pct_shown` is `100`. -/
theorem pct_shown_bounds_witness :
    0 ≤ pct_shown sampleDF sampleDF ∧ pct_shown sampleDF sampleDF ≤ 100 ∧
      (pct_shown sampleDF sampleDF = 100 ↔ sampleDF.rows = sampleDF.rows) :=
  pct_shown_bounds sampleDF coverSpec sampleDF (by decide) rfl

/-- The columns the filter of lines 149-160 looks up under spec `s`:
the three base columns always, plus `infidelity_occurred` when the radio
is not at `All`. -/
def referencedCols (s : FilterSpec) : List String :=
  baseCols ++
    (match s.inf with
     | .all => []
     | .noInf => ["infidelity_occurred"]
     | .occurred => ["infidelity_occurred"])

/-- `filtered_df` instrumented with the number of row-mask evaluations
performed before the computation finishes.  Python evaluates the mask
expression of lines 149-155 left to right: the two `age_at_marriage`
comparison masks each scan every row before `marriage_duration_years` is
looked up, the two duration masks scan before `num_children` is looked
up, and the `isin` mask completes five scans of `len(df)` rows; the
optional second step of lines 157-160 then scans the rows of the
intermediate `filtered_df`.  A `KeyError` aborts at the failing column
lookup, after the masks already evaluated. -/
def filteredScan (df : DataFrame) (s : FilterSpec) :
    Except String DataFrame × Nat :=
  if df.columns.contains "age_at_marriage" then
    if df.columns.contains "marriage_duration_years" then
      if df.columns.contains "num_children" then
        match s.inf with
        | .all =>
            (.ok ⟨df.columns, df.rows.filter (rowPassesBase s)⟩,
              5 * df.rows.length)
        | .noInf =>
            if df.columns.contains "infidelity_occurred" then
              (.ok ⟨df.columns,
                  (df.rows.filter (rowPassesBase s)).filter (rowInfEq 0)⟩,
                5 * df.rows.length
                  + (df.rows.filter (rowPassesBase s)).length)
            else
              (.error "KeyError", 5 * df.rows.length)
        | .occurred =>
            if df.columns.contains "infidelity_occurred" then
              (.ok ⟨df.columns,
                  (df.rows.filter (rowPassesBase s)).filter (rowInfEq 1)⟩,
                5 * df.rows.length
                  + (df.rows.filter (rowPassesBase s)).length)
            else
              (.error "KeyError", 5 * df.rows.length)
      else
        (.error "KeyError", 4 * df.rows.length)
    else
      (.error "KeyError", 2 * df.rows.length)
  else
    (.error "KeyError", 0)

/-- The instrumented filter computes the same result as `filtered_df`. -/
theorem filteredScan_fst (df : DataFrame) (s : FilterSpec) :
    (filteredScan df s).1 = filtered_df df s := by
  by_cases h1 : df.columns.contains "age_at_marriage" = true
  · by_cases h2 : df.columns.contains "marriage_duration_years" = true
    · by_cases h3 : df.columns.contains "num_children" = true
      · have hb : baseCols.all (fun c => df.columns.contains c) = true := by
          show (df.columns.contains "age_at_marriage" &&
              (df.columns.contains "marriage_duration_years" &&
                (df.columns.contains "num_children" && true))) = true
          rw [h1, h2, h3]
          rfl
        have hfd : filtered_df df s
            = applyInf s ⟨df.columns, df.rows.filter (rowPassesBase s)⟩ := by
          unfold filtered_df applyBase
          rw [if_pos hb]
        rw [hfd]
        unfold filteredScan
        rw [if_pos h1, if_pos h2, if_pos h3]
        cases hi : s.inf <;> simp only [applyInf, hi] <;> try rfl
        all_goals
          by_cases hc : df.columns.contains "infidelity_occurred" = true
        all_goals first
          | (rw [if_pos hc]; rw [if_pos hc])
          | (rw [if_neg hc]; rw [if_neg hc])
      · have h3f := h3
        rw [Bool.not_eq_true] at h3f
        have hb : ¬ baseCols.all (fun c => df.columns.contains c) = true := by
          show ¬ (df.columns.contains "age_at_marriage" &&
              (df.columns.contains "marriage_duration_years" &&
                (df.columns.contains "num_children" && true))) = true
          rw [h1, h2, h3f]
          simp
        have hfd : filtered_df df s = .error "KeyError" := by
          unfold filtered_df applyBase
          rw [if_neg hb]
        rw [hfd]
        unfold filteredScan
        rw [if_pos h1, if_pos h2, if_neg h3]
    · have h2f := h2
      rw [Bool.not_eq_true] at h2f
      have hb : ¬ baseCols.all (fun c => df.columns.contains c) = true := by
        show ¬ (df.columns.contains "age_at_marriage" &&
            (df.columns.contains "marriage_duration_years" &&
              (df.columns.contains "num_children" && true))) = true
        rw [h1, h2f]
        simp
      have hfd : filtered_df df s = .error "KeyError" := by
        unfold filtered_df applyBase
        rw [if_neg hb]
      rw [hfd]
      unfold filteredScan
      rw [if_pos h1, if_neg h2]
  · have h1f := h1
    rw [Bool.not_eq_true] at h1f
    have hb : ¬ baseCols.all (fun c => df.columns.contains c) = true := by
      show ¬ (df.columns.contains "age_at_marriage" &&
          (df.columns.contains "marriage_duration_years" &&
            (df.columns.contains "num_children" && true))) = true
      rw [h1f]
      simp
    have hfd : filtered_df df s = .error "KeyError" := by
      unfold filtered_df applyBase
      rw [if_neg hb]
    rw [hfd]
    unfold filteredScan
    rw [if_neg h1]

/-- A one-row table with the base columns but without
`infidelity_occurred`. -/
def noInfDF : DataFrame :=
  ⟨["age_at_marriage", "marriage_duration_years", "num_children",
    "divorced"],
   [[("age_at_marriage", 25), ("marriage_duration_years", 5),
     ("num_children", 2), ("divorced", 1)]]⟩

/-- A covering sidebar state with the radio at `No Infidelity`. -/
def noInfSpec : FilterSpec := ⟨0, 100, 0, 100, [0, 1, 2], .noInf⟩

/-- A one-row table with `age_at_marriage` and
`marriage_duration_years` but without `num_children`. -/
def noChildDF : DataFrame :=
  ⟨["age_at_marriage", "marriage_duration_years", "divorced"],
   [[("age_at_marriage", 25), ("marriage_duration_years", 5),
     ("divorced", 1)]]⟩

/-- Counterexample for C7 as stated, twice over: with the base columns
present but `infidelity_occurred` absent and the radio at `No
Infidelity`, the filter fails with `KeyError` only after the five base
masks scanned the one row; and with only the base column `num_children`
absent, the four age/duration masks have likewise already scanned the
row before the `KeyError`.  In neither case is the failure detected
before any row scan. -/
theorem schema_fail_fast_cex :
    ((filteredScan noInfDF noInfSpec).1 = .error "KeyError" ∧
      (filteredScan noInfDF noInfSpec).2 ≠ 0) ∧
      ((filteredScan noChildDF sampleSpec).1 = .error "KeyError" ∧
        (filteredScan noChildDF sampleSpec).2 ≠ 0) :=
  ⟨⟨rfl, by decide⟩, ⟨rfl, by decide⟩⟩

/-- C7 amended: a sidebar state referencing an absent column always
fails with `KeyError` and never yields a (partial) result; the failure
precedes any row scan only when the absent column is `age_at_marriage`,
the first one the mask expression looks up — whenever `age_at_marriage`
is present and the table has rows, the earlier comparison masks have
already scanned rows before any `KeyError` on a later column
(`marriage_duration_years`, `num_children`, or `infidelity_occurred`
with the radio not at `All`). -/
theorem schema_mismatch_amended (df : DataFrame) (s : FilterSpec)
    (h : ∃ c ∈ referencedCols s, df.columns.contains c = false) :
    (filteredScan df s).1 = .error "KeyError" ∧
      (∀ v, (filteredScan df s).1 ≠ .ok v) ∧
      (df.columns.contains "age_at_marriage" = false →
        (filteredScan df s).2 = 0) ∧
      (df.columns.contains "age_at_marriage" = true → df.rows ≠ [] →
        (filteredScan df s).2 ≠ 0) := by
  by_cases h1 : df.columns.contains "age_at_marriage" = true
  · have hlen : df.rows ≠ [] → df.rows.length ≠ 0 := by
      intro hne h0
      exact hne (List.length_eq_zero.mp h0)
    by_cases h2 : df.columns.contains "marriage_duration_years" = true
    · by_cases h3 : df.columns.contains "num_children" = true
      · have hbase_ok : ∀ c ∈ baseCols, df.columns.contains c = true := by
          intro c hc
          simp only [baseCols, List.mem_cons, List.not_mem_nil, or_false] at hc
          rcases hc with rfl | rfl | rfl
          · exact h1
          · exact h2
          · exact h3
        obtain ⟨c, hc, hcf⟩ := h
        rw [referencedCols, List.mem_append] at hc
        cases hi : s.inf
        · rw [hi] at hc
          simp only [List.not_mem_nil, or_false] at hc
          rw [hbase_ok c hc] at hcf
          simp at hcf
        · rw [hi] at hc
          simp only [List.mem_singleton] at hc
          rcases hc with hcb | rfl
          · rw [hbase_ok c hcb] at hcf
            simp at hcf
          · have hcn : ¬ df.columns.contains "infidelity_occurred" = true := by
              rw [hcf]
              simp
            have hres : filteredScan df s
                = (.error "KeyError", 5 * df.rows.length) := by
              unfold filteredScan
              rw [if_pos h1, if_pos h2, if_pos h3, hi]
              simp only [if_neg hcn]
            rw [hres]
            refine ⟨rfl, fun v hv => by simp at hv, fun hf => ?_, fun _ hne => ?_⟩
            · rw [h1] at hf
              simp at hf
            · have := hlen hne
              show 5 * df.rows.length ≠ 0
              omega
        · rw [hi] at hc
          simp only [List.mem_singleton] at hc
          rcases hc with hcb | rfl
          · rw [hbase_ok c hcb] at hcf
            simp at hcf
          · have hcn : ¬ df.columns.contains "infidelity_occurred" = true := by
              rw [hcf]
              simp
            have hres : filteredScan df s
                = (.error "KeyError", 5 * df.rows.length) := by
              unfold filteredScan
              rw [if_pos h1, if_pos h2, if_pos h3, hi]
              simp only [if_neg hcn]
            rw [hres]
            refine ⟨rfl, fun v hv => by simp at hv, fun hf => ?_, fun _ hne => ?_⟩
            · rw [h1] at hf
              simp at hf
            · have := hlen hne
              show 5 * df.rows.length ≠ 0
              omega
      · have hres : filteredScan df s
            = (.error "KeyError", 4 * df.rows.length) := by
          unfold filteredScan
          rw [if_pos h1, if_pos h2, if_neg h3]
        rw [hres]
        refine ⟨rfl, fun v hv => by simp at hv, fun hf => ?_, fun _ hne => ?_⟩
        · rw [h1] at hf
          simp at hf
        · have := hlen hne
          show 4 * df.rows.length ≠ 0
          omega
    · have hres : filteredScan df s
          = (.error "KeyError", 2 * df.rows.length) := by
        unfold filteredScan
        rw [if_pos h1, if_neg h2]
      rw [hres]
      refine ⟨rfl, fun v hv => by simp at hv, fun hf => ?_, fun _ hne => ?_⟩
      · rw [h1] at hf
        simp at hf
      · have := hlen hne
        show 2 * df.rows.length ≠ 0
        omega
  · have hres : filteredScan df s = (.error "KeyError", 0) := by
      unfold filteredScan
      rw [if_neg h1]
    rw [hres]
    exact ⟨rfl, fun v hv => by simp at hv, fun _ => rfl,
      fun hf => absurd hf h1⟩

/-- A table missing every base column. -/
def noAgeDF : DataFrame := ⟨["divorced"], [[("divorced", 1)]]⟩

/-- Witness for the amended C7: on a table whose first looked-up column
`age_at_marriage` is absent, the default sidebar state fails with
`KeyError` before any row scan. -/
theorem schema_mismatch_amended_witness :
    (filteredScan noAgeDF sampleSpec).1 = .error "KeyError" ∧
      (∀ v, (filteredScan noAgeDF sampleSpec).1 ≠ .ok v) ∧
      (noAgeDF.columns.contains "age_at_marriage" = false →
        (filteredScan noAgeDF sampleSpec).2 = 0) ∧
      (noAgeDF.columns.contains "age_at_marriage" = true →
        noAgeDF.rows ≠ [] →
        (filteredScan noAgeDF sampleSpec).2 ≠ 0) :=
  schema_mismatch_amended noAgeDF sampleSpec (by decide)

end DivorceApp
